import Mathlib

/-!
Verification of `generate_mock_data.py` (course-catalog mock-data generator).

The Python source is shallowly embedded below. Text processing is modelled on
`String.data` (lists of characters) with structurally recursive helpers, so
that every definition evaluates inside the kernel:

* Python `str.lower()`            → `lowerStr` (ASCII case folding, as all
  scored keywords are ASCII; non-ASCII characters are left unchanged);
* Python `needle in haystack`     → `substrB` (literal substring containment);
* Python `str.split()` on skills  → `pyWords` (the skill phrases contain only
  single spaces, so splitting on `' '` and dropping empties is exact);
* Python `str.strip()`            → `trimStr`;
* Python `str.title()`            → `pyTitleCase`;
* Python `list.sort(key=..., reverse=True)` → `sortDesc`, a stable
  insertion sort by descending numeric key (CPython's sort is stable, and
  stable sorts by the same key are extensionally equal);
* the GLM API call and JSON decoding are external; their possible outcomes
  are enumerated by `RemoteResult`, and the `try`/`except` control flow of
  `generate_content_titles` is embedded as total dispatch on that outcome;
* the one dynamic-typing failure (calling `.lower()` on a NaN lesson title)
  is modelled by `Except String` in `processRow`.
-/

/-- ASCII lower-casing of one character (Python `str.lower` on the
character sets appearing in the embedded data). -/
def lowerChar (c : Char) : Char :=
  if 'A' ≤ c && c ≤ 'Z' then Char.ofNat (c.toNat + 32) else c

/-- ASCII upper-casing of one character. -/
def upperChar (c : Char) : Char :=
  if 'a' ≤ c && c ≤ 'z' then Char.ofNat (c.toNat - 32) else c

/-- Python `s.lower()`. -/
def lowerStr (s : String) : String := String.mk (s.data.map lowerChar)

/-- `startsList n h` is true when `n` is an initial segment of `h`. -/
def startsList : List Char → List Char → Bool
  | [], _ => true
  | _ :: _, [] => false
  | c :: cs, d :: ds => c == d && startsList cs ds

/-- `subList n h` is true when `n` occurs contiguously inside `h`. -/
def subList (n : List Char) : List Char → Bool
  | [] => n.isEmpty
  | d :: ds => startsList n (d :: ds) || subList n ds

/-- Python `needle in haystack` on strings (literal substring containment). -/
def substrB (needle hay : String) : Bool := subList needle.data hay.data

/-- Splits a character list at spaces (helper for `pyWords`). -/
def splitSpaces : List Char → List Char → List String
  | acc, [] => [String.mk acc.reverse]
  | acc, c :: cs =>
    if c == ' ' then String.mk acc.reverse :: splitSpaces [] cs
    else splitSpaces (c :: acc) cs

/-- Python `s.split()` for the skill/keyword phrases of the source, which
contain single ASCII spaces only: split at spaces, drop empty pieces. -/
def pyWords (s : String) : List String :=
  (splitSpaces [] s.data).filter (fun w => !w.isEmpty)

/-- Whitespace test used by `trimStr` (ASCII whitespace, as in the
responses the code strips). -/
def wsChar (c : Char) : Bool := c == ' ' || c == '\t' || c == '\n' || c == '\r'

/-- Python `s.strip()`: drop whitespace from both ends. -/
def trimStr (s : String) : String :=
  String.mk (((s.data.dropWhile wsChar).reverse.dropWhile wsChar).reverse)

/-- Splits a character list at newline characters (Python `s.split("\n")`). -/
def splitNl : List Char → List Char → List String
  | acc, [] => [String.mk acc.reverse]
  | acc, c :: cs =>
    if c == '\n' then String.mk acc.reverse :: splitNl [] cs
    else splitNl (c :: acc) cs

/-- Python `s.split("\n")`. -/
def splitLines (s : String) : List String := splitNl [] s.data

/-- Python `s.startswith(p)`. -/
def startsWithStr (p s : String) : Bool := startsList p.data s.data

/-- One step of Python `str.title()`: the Bool records whether the previous
character was alphabetic. -/
def titleStep : List Char → Bool → List Char
  | [], _ => []
  | c :: cs, prevAlpha =>
    if c.isAlpha then
      (if prevAlpha then lowerChar c else upperChar c) :: titleStep cs true
    else c :: titleStep cs false

/-- Python `s.title()`: upper-case each character that starts an alphabetic
run, lower-case the rest of the run. -/
def pyTitleCase (s : String) : String := String.mk (titleStep s.data false)

/-! ### Stable descending sort by numeric key

`category_scores.sort(key=lambda x: x[1], reverse=True)` in the source is a
stable sort by descending score.  `sortDesc` is a stable insertion sort with
the same specification; `firstMax` names its head. -/

/-- Inserts `x` into a descending-sorted list, after the existing entries
whose key is strictly larger and before those whose key is `≤` (so an
element inserted later, i.e. appearing earlier in the original list, lands
before equal keys — stability). -/
def insertDesc {α : Type} (x : α × Nat) : List (α × Nat) → List (α × Nat)
  | [] => [x]
  | y :: ys => if x.2 < y.2 then y :: insertDesc x ys else x :: y :: ys

/-- Stable sort by descending numeric key (Python
`sort(key=lambda p: p[1], reverse=True)`). -/
def sortDesc {α : Type} : List (α × Nat) → List (α × Nat)
  | [] => []
  | x :: xs => insertDesc x (sortDesc xs)

/-- The first entry of a list attaining the maximal key (ties: the earliest
entry wins); `none` on the empty list. -/
def firstMax {α : Type} : List (α × Nat) → Option (α × Nat)
  | [] => none
  | x :: xs =>
    match firstMax xs with
    | none => some x
    | some m => if x.2 < m.2 then some m else some x

/-! ### The static registries of `generate_mock_data.py` -/

/-- A category of the fixed registry: `{"id": ..., "name": ..., "skills": [...]}`. -/
structure Category where
  id : String
  name : String
  skills : List String
  deriving DecidableEq, Repr

/-- `categories[0]` of the source. -/
def cat001 : Category :=
  { id := "cat001", name := "Computer Science",
    skills := ["Programming", "Algorithms", "Data Structures",
               "Software Engineering", "Computer Science", "Python",
               "JavaScript", "Web Development"] }

def cat002 : Category :=
  { id := "cat002", name := "Business & Management",
    skills := ["Leadership", "Project Management", "Marketing", "Finance",
               "Management", "Business", "Strategy", "Organizational Behavior"] }

def cat003 : Category :=
  { id := "cat003", name := "Data Analysis & Statistics",
    skills := ["Data Analysis", "Statistics", "Machine Learning",
               "Data Visualization", "Analytics", "Data Science", "R",
               "Big Data"] }

def cat004 : Category :=
  { id := "cat004", name := "Education & Teacher Training",
    skills := ["Teaching", "Curriculum Design", "Educational Technology",
               "Assessment", "Education", "Learning", "Training",
               "Instructional Design"] }

def cat005 : Category :=
  { id := "cat005", name := "Health & Safety",
    skills := ["Public Health", "Mental Health", "Safety", "Wellness",
               "Health", "Psychology", "Medicine", "Healthcare"] }

def cat006 : Category :=
  { id := "cat006", name := "Communication",
    skills := ["Public Speaking", "Writing", "Interpersonal Communication",
               "Digital Communication", "Communication", "Presentation",
               "Negotiation", "Media"] }

def cat007 : Category :=
  { id := "cat007", name := "Humanities",
    skills := ["History", "Philosophy", "Literature", "Art", "Culture",
               "Society", "Ethics", "Critical Thinking"] }

def cat008 : Category :=
  { id := "cat008", name := "Science",
    skills := ["Biology", "Chemistry", "Physics", "Environmental Science",
               "Research", "Mathematics", "Engineering", "Scientific Method"] }

/-- The fixed category registry (`categories` in `generate_mock_data`). -/
def categories : List Category :=
  [cat001, cat002, cat003, cat004, cat005, cat006, cat007, cat008]

/-- A subcategory entry: `{"name": ..., "keywords": [...]}`. -/
structure Subcat where
  name : String
  keywords : List String
  deriving DecidableEq, Repr

/-- The `sub_categories["Computer Science"]` list, also the fallback for an
unknown category name in `detect_subcategories`. -/
def csSubcategories : List Subcat :=
  [ { name := "Programming Fundamentals",
      keywords := ["programming", "coding", "variables", "loops",
                   "functions", "basics"] },
    { name := "Algorithms & Data Structures",
      keywords := ["algorithm", "data structure", "efficiency",
                   "optimization", "sorting"] },
    { name := "Web Development",
      keywords := ["web", "html", "css", "javascript", "frontend", "backend"] },
    { name := "Software Engineering",
      keywords := ["software engineering", "development lifecycle", "testing",
                   "debugging", "version control"] },
    { name := "Computer Architecture",
      keywords := ["computer architecture", "hardware", "systems",
                   "low-level", "assembly"] },
    { name := "Introduction",
      keywords := ["intro", "introduction", "beginner", "basic",
                   "getting started"] } ]

/-- The `sub_categories` dictionary of the source (category name ↦ its
subcategory list), as an association list in declaration order. -/
def sub_categories : List (String × List Subcat) :=
  [ ("Computer Science", csSubcategories),
    ("Business & Management",
     [ { name := "Leadership",
         keywords := ["leadership", "leading", "managing teams", "influence",
                      "motivation"] },
       { name := "Project Management",
         keywords := ["project management", "planning", "execution",
                      "milestones", "timeline"] },
       { name := "Marketing",
         keywords := ["marketing", "promotion", "branding",
                      "customer acquisition", "market research"] },
       { name := "Finance",
         keywords := ["finance", "financial", "budgeting", "investment",
                      "accounting"] },
       { name := "Strategy",
         keywords := ["strategy", "strategic planning", "competitive advantage",
                      "business model"] },
       { name := "Introduction",
         keywords := ["intro", "introduction", "beginner", "basic",
                      "getting started"] } ]),
    ("Data Analysis & Statistics",
     [ { name := "Statistical Analysis",
         keywords := ["statistics", "statistical", "probability",
                      "distribution", "hypothesis testing"] },
       { name := "Machine Learning",
         keywords := ["machine learning", "ml", "prediction", "classification",
                      "regression", "clustering"] },
       { name := "Data Visualization",
         keywords := ["visualization", "charts", "graphs", "dashboard",
                      "presentation"] },
       { name := "Data Processing",
         keywords := ["data processing", "cleaning", "transformation",
                      "wrangling", "preprocessing"] },
       { name := "Big Data",
         keywords := ["big data", "large scale", "distributed computing",
                      "hadoop", "spark"] },
       { name := "Introduction",
         keywords := ["intro", "introduction", "beginner", "basic",
                      "getting started"] } ]),
    ("Education & Teacher Training",
     [ { name := "Teaching Methods",
         keywords := ["teaching", "instruction", "pedagogy", "lesson planning",
                      "classroom"] },
       { name := "Educational Technology",
         keywords := ["educational technology", "edtech", "digital learning",
                      "online education"] },
       { name := "Assessment",
         keywords := ["assessment", "evaluation", "testing", "feedback",
                      "grading"] },
       { name := "Curriculum Design",
         keywords := ["curriculum", "syllabus", "course design",
                      "learning objectives"] },
       { name := "Learning Theory",
         keywords := ["learning theory", "educational psychology", "cognition",
                      "knowledge acquisition"] },
       { name := "Introduction",
         keywords := ["intro", "introduction", "beginner", "basic",
                      "getting started"] } ]),
    ("Health & Safety",
     [ { name := "Public Health",
         keywords := ["public health", "population health", "epidemiology",
                      "health policy"] },
       { name := "Mental Health",
         keywords := ["mental health", "psychology", "wellbeing", "stress",
                      "mindfulness"] },
       { name := "Safety",
         keywords := ["safety", "risk assessment", "hazard prevention",
                      "workplace safety"] },
       { name := "Healthcare",
         keywords := ["healthcare", "medicine", "clinical", "patient care",
                      "health systems"] },
       { name := "Wellness",
         keywords := ["wellness", "health promotion", "lifestyle", "prevention",
                      "self-care"] },
       { name := "Introduction",
         keywords := ["intro", "introduction", "beginner", "basic",
                      "getting started"] } ]),
    ("Communication",
     [ { name := "Public Speaking",
         keywords := ["public speaking", "presentation", "speaking", "audience",
                      "delivery"] },
       { name := "Writing",
         keywords := ["writing", "composition", "grammar", "style",
                      "content creation"] },
       { name := "Interpersonal Communication",
         keywords := ["interpersonal", "conversation", "listening", "empathy",
                      "relationships"] },
       { name := "Digital Communication",
         keywords := ["digital communication", "social media", "online",
                      "virtual", "remote"] },
       { name := "Media Studies",
         keywords := ["media", "journalism", "content creation", "broadcasting",
                      "publishing"] },
       { name := "Introduction",
         keywords := ["intro", "introduction", "beginner", "basic",
                      "getting started"] } ]),
    ("Humanities",
     [ { name := "History",
         keywords := ["history", "historical", "past", "civilization",
                      "chronology"] },
       { name := "Philosophy",
         keywords := ["philosophy", "philosophical", "ethics", "logic",
                      "metaphysics"] },
       { name := "Literature",
         keywords := ["literature", "literary", "fiction", "poetry", "drama"] },
       { name := "Art",
         keywords := ["art", "artistic", "aesthetics", "creative expression",
                      "visual arts"] },
       { name := "Cultural Studies",
         keywords := ["culture", "cultural", "society", "anthropology",
                      "social studies"] },
       { name := "Introduction",
         keywords := ["intro", "introduction", "beginner", "basic",
                      "getting started"] } ]),
    ("Science",
     [ { name := "Biology",
         keywords := ["biology", "biological", "organism", "ecosystem",
                      "genetics"] },
       { name := "Chemistry",
         keywords := ["chemistry", "chemical", "molecular", "reaction",
                      "compounds"] },
       { name := "Physics",
         keywords := ["physics", "physical", "energy", "motion", "forces"] },
       { name := "Environmental Science",
         keywords := ["environmental", "climate", "sustainability", "ecology",
                      "conservation"] },
       { name := "Scientific Method",
         keywords := ["scientific method", "research", "experimentation",
                      "hypothesis", "analysis"] },
       { name := "Introduction",
         keywords := ["intro", "introduction", "beginner", "basic",
                      "getting started"] } ]) ]

/-- The `language_keywords` dictionary (identical in
`generate_content_titles` and `identify_main_topic`), in declaration order,
duplicate entries preserved. -/
def language_keywords : List (String × List String) :=
  [ ("chinese", ["chinese", "mandarin", "中文", "汉语"]),
    ("spanish", ["spanish", "español", "español"]),
    ("french", ["french", "français", "français"]),
    ("german", ["german", "deutsch"]),
    ("japanese", ["japanese", "日本語", "日本語"]),
    ("arabic", ["arabic", "العربية"]) ]

/-- The `topic_keywords` dictionary of `identify_main_topic`:
category name ↦ ordered (keyword, topic) pairs. -/
def topic_keywords : List (String × List (String × String)) :=
  [ ("Computer Science",
     [ ("python", "Python"), ("programming", "Programming"),
       ("javascript", "JavaScript"), ("java", "Java"),
       ("web development", "Web Development"),
       ("artificial intelligence", "Artificial Intelligence"),
       ("ai", "Artificial Intelligence"),
       ("machine learning", "Machine Learning"),
       ("ml", "Machine Learning"), ("deep learning", "Deep Learning"),
       ("data science", "Data Science"),
       ("data structures", "Data Structures"),
       ("algorithms", "Algorithms"),
       ("computer science", "Computer Science"),
       ("cybersecurity", "Cybersecurity") ]),
    ("Business & Management",
     [ ("marketing", "Marketing"),
       ("project management", "Project Management"),
       ("finance", "Finance"), ("accounting", "Accounting"),
       ("leadership", "Leadership"),
       ("entrepreneurship", "Entrepreneurship"),
       ("business", "Business") ]),
    ("Data Analysis & Statistics",
     [ ("data analysis", "Data Analysis"), ("statistics", "Statistics"),
       ("data visualization", "Data Visualization"),
       ("analytics", "Analytics") ]),
    ("Education & Teacher Training",
     [ ("teaching", "Teaching"), ("education", "Education"),
       ("pedagogy", "Pedagogy") ]),
    ("Health & Safety",
     [ ("health", "Health"), ("mental health", "Mental Health"),
       ("safety", "Safety"), ("first aid", "First Aid"),
       ("nutrition", "Nutrition") ]),
    ("Communication",
     [ ("communication", "Communication"),
       ("public speaking", "Public Speaking"),
       ("writing", "Writing"), ("journalism", "Journalism") ]),
    ("Humanities",
     [ ("philosophy", "Philosophy"), ("history", "History"),
       ("art", "Art"), ("music", "Music"),
       ("literature", "Literature"), ("justice", "Justice"),
       ("law", "Law"), ("ethics", "Ethics") ]),
    ("Science",
     [ ("biology", "Biology"), ("chemistry", "Chemistry"),
       ("physics", "Physics"),
       ("environmental science", "Environmental Science"),
       ("astronomy", "Astronomy"), ("psychology", "Psychology") ]) ]

/-- The `subtopic_patterns` dictionary of `identify_subtopics`:
main topic ↦ subtopic keywords, in declaration order. -/
def subtopic_patterns : List (String × List String) :=
  [ ("Python",
     ["variables", "data types", "control flow", "functions",
      "object-oriented programming", "modules", "libraries", "debugging"]),
    ("Programming",
     ["variables", "data types", "control structures", "functions",
      "error handling", "testing", "debugging"]),
    ("Artificial Intelligence",
     ["machine learning", "neural networks", "deep learning",
      "natural language processing", "computer vision", "ethics"]),
    ("Web Development",
     ["html", "css", "javascript", "responsive design",
      "backend development", "frontend frameworks"]),
    ("Data Science",
     ["data collection", "data cleaning", "data analysis",
      "data visualization", "machine learning"]),
    ("Marketing",
     ["market research", "consumer behavior", "digital marketing",
      "content strategy", "branding"]),
    ("Finance",
     ["financial planning", "investment", "risk management",
      "financial analysis", "budgeting"]),
    ("Leadership",
     ["team building", "communication", "decision making",
      "conflict resolution", "motivation"]),
    ("Data Analysis",
     ["data collection", "statistical analysis", "data visualization",
      "data interpretation", "reporting"]),
    ("Statistics",
     ["probability theory", "statistical inference", "hypothesis testing",
      "regression analysis", "bayesian statistics"]),
    ("Teaching",
     ["lesson planning", "classroom management", "assessment techniques",
      "educational psychology", "inclusive teaching"]),
    ("Health",
     ["nutrition", "exercise", "mental wellness", "disease prevention",
      "healthcare systems"]),
    ("Communication",
     ["verbal communication", "nonverbal communication",
      "interpersonal skills", "public speaking", "digital communication"]),
    ("Philosophy",
     ["metaphysics", "epistemology", "ethics", "logic",
      "political philosophy"]),
    ("History",
     ["historical methods", "ancient history", "medieval history",
      "modern history", "cultural history"]),
    ("Art",
     ["art history", "drawing techniques", "color theory", "art movements",
      "art appreciation"]),
    ("Justice",
     ["legal systems", "criminal law", "civil law", "international law",
      "ethics in justice"]),
    ("Biology",
     ["cell biology", "genetics", "evolution", "ecology", "human anatomy"]),
    ("Chemistry",
     ["atomic structure", "chemical bonds", "chemical reactions",
      "organic chemistry", "biochemistry"]),
    ("Physics",
     ["mechanics", "thermodynamics", "electromagnetism", "quantum physics",
      "relativity"]),
    ("chinese",
     ["pinyin", "characters", "grammar", "listening", "speaking", "reading",
      "writing"]),
    ("spanish",
     ["pronunciation", "grammar", "vocabulary", "reading", "writing",
      "listening", "speaking"]),
    ("french",
     ["pronunciation", "grammar", "vocabulary", "reading", "writing",
      "listening", "speaking"]),
    ("german",
     ["pronunciation", "grammar", "vocabulary", "reading", "writing",
      "listening", "speaking"]),
    ("japanese",
     ["hiragana", "katakana", "kanji", "grammar", "vocabulary", "reading",
      "writing", "listening", "speaking"]),
    ("arabic",
     ["alphabet", "pronunciation", "grammar", "vocabulary", "reading",
      "writing", "listening", "speaking"]) ]

/-- The `topic_templates` dictionary of `generate_titles_for_topic`
(typos of the source preserved verbatim). -/
def topic_templates : List (String × List String) :=
  [ ("Python",
     ["Introduction to Python", "Python Variables and Data Types",
      "Python Control Structures", "Python Functions",
      "Python Object-Oriented Programming"]),
    ("Programming",
     ["Introduction to Programming", "Variables and Data Types",
      "Control Structures", "Functions and Methods",
      "Error Handling and Debugging"]),
    ("Artificial Intelligence",
     ["Introduction to Artificial Intelligence",
      "Machine Learning Fundamentals", "Neural Networks and Deep Learning",
      "Natural Language Processing", "Computer Vision Applications"]),
    ("Web Development",
     ["HTML and CSS Fundamentals", "JavaScript Essentials",
      "Responsive Web Design", "Frontend Frameworks", "Backend Development"]),
    ("Data Science",
     ["Introduction to Data Science", "Data Collection and Cleaning",
      "Statistical Analysis", "Data Visualization",
      "Machine Learning Applications"]),
    ("Marketing",
     ["Marketing Fundamentals", "Market Research and Analysis",
      "Consumer Behavior", "Digital Marketing Strategies",
      "Marketing Campaign Planning"]),
    ("Finance",
     ["Introduction to Finance", "Financial Planning and Analysis",
      "Investment Strategies", "Risk Management", "Portfolio Management"]),
    ("Leadership",
     ["Leadership Fundamentals", "Team Building and Management",
      "Effective Communication", "Decision Making and Problem Solving",
      "Strategic Leadership"]),
    ("Data Analysis",
     ["Introduction to Data Analysis", "Data Collection Methods",
      "Statistical Analysis Techniques", "Data Visualization",
      "Data Interpretation and Reporting"]),
    ("Statistics",
     ["Introduction to Statistics", "Probability Theory",
      "Statistical Inference", "Hypothesis Testing", "Regression Analysis"]),
    ("Teaching",
     ["Introduction to Teaching", "Lesson Planning and Design",
      "Classroom Management Techniques", "Assessment and Evaluation",
      "Educational Technology"]),
    ("Health",
     ["Introduction to Health and Wellness", "Nutrition and Diet",
      "Exercise and Physical Activity",
      "Mental Health and Stress Management", "Disease Prevention"]),
    ("Communication",
     ["Communication Fundamentals", "Verbal and Nonverbal Communication",
      "Interpersonal Skills", "Public Speaking", "Digital Communication"]),
    ("Philosophy",
     ["Introduction to Philosoph", "Ethics and Moral Philosoph",
      "Logic and Critical Thinking", "Metaphysics and Epistemology",
      "Philosophy of Mind"]),
    ("History",
     ["Introduction to History", "Historical Methods and Research",
      "World History Overview", "Cultural History",
      "Historical Analysis and Interpretation"]),
    ("Art",
     ["Introduction to Art", "Art History and Movements",
      "Drawing Techniques", "Color Theory", "Art Appreciation"]),
    ("Justice",
     ["Introduction to Justice Systems", "Criminal Law", "Civil Law",
      "International Law", "Ethics in Justice"]),
    ("Biology",
     ["Introduction to Biology", "Cell Biology", "Genetics and Evolution",
      "Ecology and Ecosystems", "Human Biology"]),
    ("Chemistry",
     ["Introduction to Chemistry", "Atomic Structure and Periodic Table",
      "Chemical Bonds and Reactions", "Organic Chemistry", "Biochemistry"]),
    ("Physics",
     ["Introduction to Physics", "Mechanics", "Thermodynamics",
      "Electromagnetism", "Quantum Physics"]),
    ("chinese",
     ["Introduction to Mandarin Chinese", "Pinyin and Pronunciation",
      "Chinese Characters and Writing", "Basic Grammar and Sentence Structure",
      "Everyday Conversation Practice"]),
    ("spanish",
     ["Introduction to Spanish", "Spanish Pronunciation",
      "Basic Spanish Grammar", "Vocabulary Building", "Conversation Practice"]),
    ("french",
     ["Introduction to French", "French Pronunciation", "Basic French Grammar",
      "Vocabulary Building", "Conversation Practice"]),
    ("german",
     ["Introduction to German", "German Pronunciation", "Basic German Grammar",
      "Vocabulary Building", "Conversation Practice"]),
    ("japanese",
     ["Introduction to Japanese", "Hiragana and Katakana",
      "Basic Japanese Grammar", "Kanji and Vocabulary Building",
      "Conversation Practice"]),
    ("arabic",
     ["Introduction to Arabic", "Arabic Alphabet and Pronunciation",
      "Basic Arabic Grammar", "Vocabulary Building", "Conversation Practice"]) ]

/-- The generic default template (`topic_templates.get(main_topic, [...])`). -/
def genericTemplate : List String :=
  ["Introduction to Course", "Basic Concepts", "Intermediate Topics",
   "Advanced Topics", "Practical Applications"]

/-! ### The classifier (`detect_category`, `detect_subcategories`) -/

/-- The haystack of `detect_category`:
`(str(description) + " " + str(about)).lower()`. -/
def categoryHaystack (description about : String) : String :=
  lowerStr (description ++ " " ++ about)

/-- The per-category score of `detect_category`: for each skill, `+3` when
the lower-cased skill phrase occurs as a substring of the text, and `+1`
for each word of the lower-cased skill found in the text whose length
exceeds 3 (the word loop runs for every skill, single-word skills
included). -/
def categoryScore (c : Category) (text : String) : Nat :=
  c.skills.foldl
    (fun score skill =>
      let score1 := if substrB (lowerStr skill) text then score + 3 else score
      (pyWords (lowerStr skill)).foldl
        (fun sc w =>
          if substrB w text && decide (3 < w.data.length) then sc + 1 else sc)
        score1)
    0

/-- `category_scores`: every registry category paired with its score. -/
def scoredCategories (text : String) : List (Category × Nat) :=
  categories.map (fun c => (c, categoryScore c text))

/-- `detect_category(description, about)`: sort the scored registry by
descending score (stable), return the top category, or `categories[0]`
when the top score is 0. -/
def detect_category (description about : String) : Category :=
  match sortDesc (scoredCategories (categoryHaystack description about)) with
  | [] => cat001
  | (c, s) :: _ => if s = 0 then cat001 else c

/-- Modelled from the claim's words (C2): the same scoring, but over the
lower-cased concatenation of the course title, the description and the
'about' text. Used only to compare the claimed haystack with the code's. -/
def detect_category_claim (title description about : String) : Category :=
  match
    sortDesc (scoredCategories
      (lowerStr (title ++ " " ++ description ++ " " ++ about))) with
  | [] => cat001
  | (c, s) :: _ => if s = 0 then cat001 else c

/-- Modelled from the claim's words (C3): `+3` per phrase substring plus
`+1` per long word, the word bonus granted only to multi-word keywords. -/
def categoryScore_claim (c : Category) (text : String) : Nat :=
  (c.skills.map
    (fun skill =>
      (if substrB (lowerStr skill) text then 3 else 0) +
      (if 2 ≤ (pyWords (lowerStr skill)).length then
        ((pyWords (lowerStr skill)).filter
          (fun w => substrB w text && decide (3 < w.data.length))).length
       else 0))).sum

/-- The subcategory lists for a category name
(`sub_categories.get(category_name, sub_categories["Computer Science"])`). -/
def subcatsFor (category_name : String) : List Subcat :=
  (sub_categories.lookup category_name).getD csSubcategories

/-- The subcategory score of `detect_subcategories`: `+1` per keyword
occurring as a substring of the text. -/
def subcatScore (s : Subcat) (text : String) : Nat :=
  s.keywords.foldl
    (fun score keyword => if substrB keyword text then score + 1 else score) 0

/-- The `detected_subcategories` list built by `detect_subcategories`:
score every subcategory of the category, sort by descending score
(stable), keep the names of those with a positive score, in that order. -/
def detectedSubcategories (description about category_name : String) :
    List String :=
  ((sortDesc ((subcatsFor category_name).map
      (fun s => (s.name, subcatScore s (categoryHaystack description about))))).filter
    (fun p => decide (0 < p.2))).map (fun p => p.1)

/-- `detect_subcategories(description, about, category_name)`: the detected
list, defaulting to `["Introduction"]` when it is empty. -/
def detect_subcategories (description about category_name : String) :
    List String :=
  if (detectedSubcategories description about category_name).isEmpty
  then ["Introduction"]
  else detectedSubcategories description about category_name

/-- The skill extraction of `generate_mock_data` (lines 1512–1523): the
first skill of the detected category whose lower-cased name occurs in the
lower-cased description, else the category's first skill. -/
def detectSkill (description : String) (category : Category) : String :=
  match category.skills.find?
      (fun skill => substrB (lowerStr skill) (lowerStr description)) with
  | some skill => skill
  | none => category.skills.headD ""

/-! ### The deterministic title synthesizer -/

/-- The language scan of `identify_main_topic`: the first language (in
declaration order) one of whose keywords occurs in the text. -/
def findLanguage (text : String) : Option String :=
  (language_keywords.find?
    (fun p => p.2.any (fun kw => substrB kw text))).map (fun p => p.1)

/-- `topic_keywords.get(category_name, [])`. -/
def topicKeywordsFor (category_name : String) : List (String × String) :=
  (topic_keywords.lookup category_name).getD []

/-- The category-keyword scan of `identify_main_topic`: the first
(keyword, topic) pair whose keyword occurs in the text. -/
def findTopicPair (pairs : List (String × String)) (text : String) :
    Option (String × String) :=
  pairs.find? (fun pr => substrB pr.1 text)

/-- `identify_main_topic(combined_text, category_name)`: language keywords
first, then the category's (keyword ↦ topic) list, then the category name
itself (`"General"` when it is empty/falsy). -/
def identify_main_topic (combined_text category_name : String) : String :=
  match findLanguage combined_text with
  | some language => language
  | none =>
    match findTopicPair (topicKeywordsFor category_name) combined_text with
    | some pr => pr.2
    | none => if category_name = "" then "General" else category_name

/-- `subtopic_patterns.get(main_topic, [])`. -/
def subtopicPatternsFor (main_topic : String) : List String :=
  (subtopic_patterns.lookup main_topic).getD []

/-- `identify_subtopics(combined_text, main_topic)`: the patterns of the
main topic that occur in the text, in declaration order. -/
def identify_subtopics (combined_text main_topic : String) : List String :=
  (subtopicPatternsFor main_topic).filter (fun p => substrB p combined_text)

/-- `topic_templates.get(main_topic, [generic template])`. -/
def topicTemplatesFor (main_topic : String) : List String :=
  (topic_templates.lookup main_topic).getD genericTemplate

/-- The subtopic-overwriting loop of `generate_titles_for_topic`:
`templates[i] = f"{main_topic}: {subtopic.title()}"` for the supplied
subtopics, stopping when either list runs out. -/
def applySubtopics (main_topic : String) :
    List String → List String → List String
  | [], templates => templates
  | _ :: _, [] => []
  | s :: ss, _ :: ts =>
    (main_topic ++ ": " ++ pyTitleCase s) :: applySubtopics main_topic ss ts

/-- `generate_titles_for_topic(main_topic, subtopics)`: look the template
up, overwrite its first entries with `"{main_topic}: {Subtopic}"` for the
first 4 detected subtopics, return the first 5 entries. -/
def generate_titles_for_topic (main_topic : String) (subtopics : List String) :
    List String :=
  let templates := topicTemplatesFor main_topic
  let updated :=
    if subtopics.isEmpty then templates
    else applySubtopics main_topic (subtopics.take 4) templates
  updated.take 5

/-- `generate_fallback_content_titles(lesson_title, description,
category_name)`: lower-case, combine, identify topic and subtopics,
instantiate the template. -/
def generate_fallback_content_titles
    (lesson_title description category_name : String) : List String :=
  let combined_text := lowerStr lesson_title ++ " " ++ lowerStr description
  let main_topic := identify_main_topic combined_text category_name
  let subtopics := identify_subtopics combined_text main_topic
  generate_titles_for_topic main_topic subtopics

/-! ### The remote-assisted path (`generate_content_titles`)

The GLM HTTP call and `json.loads` are external; `RemoteResult` enumerates
their observable outcomes, mirroring the `try`/`except` structure:
`noApiKey` (no credential found), `requestFailure` (any exception raised by
the request: connection error, timeout, non-2xx status), `noChoices` (a
2xx JSON body without a non-empty `choices`), `contentJson t?` (the
message content was valid JSON; `t?` is its optional `"titles"` list) and
`contentText c` (the content was not valid JSON, `json.loads` raised). -/

inductive RemoteResult where
  | noApiKey : RemoteResult
  | requestFailure : String → RemoteResult
  | noChoices : RemoteResult
  | contentJson : Option (List String) → RemoteResult
  | contentText : String → RemoteResult
  deriving DecidableEq, Repr

/-- A stripped line starting with one of the bullets
`("-", "*", "1.", "2.", "3.", "4.", "5.")`.  On such a line the source
evaluates `line.startswith("-", "*")`, which raises `TypeError` (the second
argument of `startswith` must be an integer). -/
def bulletLine (line : String) : Bool :=
  startsWithStr "-" line || startsWithStr "*" line || startsWithStr "1." line ||
  startsWithStr "2." line || startsWithStr "3." line || startsWithStr "4." line ||
  startsWithStr "5." line

/-- The line-extraction loop over a non-JSON content: strip each line,
abort with the `TypeError` on a bullet line, collect non-empty lines,
stop at 5. -/
def collectLines : List String → List String → Except Unit (List String)
  | [], acc => Except.ok acc
  | l :: ls, acc =>
    let line := trimStr l
    if bulletLine line then Except.error ()
    else
      let acc' := if line = "" then acc else acc ++ [line]
      if 5 ≤ acc'.length then Except.ok acc' else collectLines ls acc'

/-- The titles the remote path itself produces: `some ts` exactly when the
source returns before reaching a fallback call, `none` when control falls
through to `generate_fallback_content_titles` (including the `except`
handler). -/
def remoteTitles : RemoteResult → Option (List String)
  | RemoteResult.contentJson (some ts) =>
    if 0 < ts.length then some (ts.take 5) else none
  | RemoteResult.contentText c =>
    (match collectLines (splitLines (trimStr c)) [] with
     | Except.ok ts => if ts.isEmpty then none else some ts
     | Except.error _ => none)
  | _ => none

/-- `generate_content_titles(lesson_title, description, category_name)`
with the remote outcome made explicit: the remote titles when the remote
path produced any, else the deterministic fallback. -/
def generate_content_titles (remote : RemoteResult)
    (lesson_title description category_name : String) : List String :=
  match remoteTitles remote with
  | some ts => ts
  | none =>
    generate_fallback_content_titles lesson_title description category_name

/-- `generate_content_titles` as called by the pipeline, where the lesson
title is the raw `row["Name"]` cell (`none` models a NaN cell): every path
through `generate_fallback_content_titles` starts with
`lesson_title.lower()`, which raises `AttributeError` on NaN; the `except`
handler re-runs the fallback and the second `AttributeError` propagates. -/
def generate_content_titles_dyn (remote : RemoteResult)
    (name : Option String) (description category_name : String) :
    Except String (List String) :=
  match remoteTitles remote with
  | some ts => Except.ok ts
  | none =>
    match name with
    | some t =>
      Except.ok (generate_fallback_content_titles t description category_name)
    | none => Except.error "AttributeError: 'float' object has no attribute 'lower'"

/-! ### Record assembly (`generate_mock_data` row loop) -/

/-- One input CSV row; `none` models a NaN (absent) cell.  The source
normalizes `About`, `Course Description`, `University` and `Link` with
`pd.notna`, but uses `row["Name"]` raw. -/
structure InputRow where
  name : Option String
  difficultyLevel : String
  about : Option String
  courseDescription : Option String
  university : Option String
  link : Option String
  deriving DecidableEq, Repr

/-- One output CSV row.  Timestamps are seconds on an integer timeline
(datetime arithmetic with `timedelta(days=n)` adds `n * 86400` seconds). -/
structure OutputRecord where
  id : String
  lessontitle : Option String
  contentTitle : List String
  skillName : String
  level : String
  categoryId : String
  catName : String
  subCatName : List String
  coverImageId : String
  previewVideoId : String
  createdAt : Int
  updatedAt : Int
  deletedAt : Option Int
  status : String
  shortDescription : String
  description : String
  university : String
  link : String

/-- The category the row loop detects:
`detect_category(description, short_description)` — computed from the
normalized `Course Description` and `About` fields only. -/
def rowCategory (row : InputRow) : Category :=
  detect_category (row.courseDescription.getD "") (row.about.getD "")

/-- One iteration of the `generate_mock_data` row loop.  The random draws
(`days_ago`, the update offset, the status choice) and the generated ULID
are passed in explicitly; `now` is the current time in seconds.  Returns
`Except.error` when the iteration raises (NaN lesson title on the fallback
path). -/
def processRow (row : InputRow) (ulid : String) (daysAgo offset : Nat)
    (status : String) (now : Int) (remote : RemoteResult) :
    Except String OutputRecord :=
  let short_description := row.about.getD ""
  let description := row.courseDescription.getD ""
  let category := rowCategory row
  let sub_category_list :=
    detect_subcategories description short_description category.name
  let skill_name := detectSkill description category
  match generate_content_titles_dyn remote row.name description category.name with
  | Except.error e => Except.error e
  | Except.ok content_title =>
    Except.ok
      { id := ulid
        lessontitle := row.name
        contentTitle := content_title
        skillName := skill_name
        level := row.difficultyLevel
        categoryId := category.id
        catName := category.name
        subCatName := sub_category_list
        coverImageId := "img_" ++ String.mk (ulid.data.take 8)
        previewVideoId := "vid_" ++ String.mk (ulid.data.take 8)
        createdAt := now - (daysAgo : Int) * 86400
        updatedAt := now - (daysAgo : Int) * 86400 + (offset : Int) * 86400
        deletedAt := none
        status := status
        shortDescription := short_description
        description := description
        university := row.university.getD ""
        link := row.link.getD "" }

/-! ## Theorems

### Properties of the stable descending sort -/

theorem mem_insertDesc {α : Type} (x z : α × Nat) (l : List (α × Nat)) :
    z ∈ insertDesc x l ↔ z = x ∨ z ∈ l := by
  induction l with
  | nil => simp [insertDesc]
  | cons y ys ih =>
    by_cases h : x.2 < y.2
    · simp only [insertDesc, if_pos h, List.mem_cons, ih]
      tauto
    · simp only [insertDesc, if_neg h, List.mem_cons]

theorem mem_sortDesc {α : Type} (z : α × Nat) (l : List (α × Nat)) :
    z ∈ sortDesc l ↔ z ∈ l := by
  induction l with
  | nil => simp [sortDesc]
  | cons x xs ih => simp [sortDesc, mem_insertDesc, ih]

theorem insertDesc_ne_nil {α : Type} (x : α × Nat) (l : List (α × Nat)) :
    insertDesc x l ≠ [] := by
  cases l with
  | nil => simp [insertDesc]
  | cons y ys =>
    by_cases h : x.2 < y.2 <;> simp [insertDesc, h]

theorem sortDesc_eq_nil_iff {α : Type} (l : List (α × Nat)) :
    sortDesc l = [] ↔ l = [] := by
  cases l with
  | nil => simp [sortDesc]
  | cons x xs => simp [sortDesc, insertDesc_ne_nil]

theorem firstMax_eq_none_iff {α : Type} (l : List (α × Nat)) :
    firstMax l = none ↔ l = [] := by
  cases l with
  | nil => simp [firstMax]
  | cons x xs =>
    simp only [firstMax]
    cases firstMax xs with
    | none => simp
    | some m =>
      by_cases h : x.2 < m.2 <;> simp [h]

theorem head?_insertDesc {α : Type} (x : α × Nat) (l : List (α × Nat)) :
    (insertDesc x l).head? =
      some (match l.head? with
            | none => x
            | some y => if x.2 < y.2 then y else x) := by
  cases l with
  | nil => simp [insertDesc]
  | cons y ys =>
    by_cases h : x.2 < y.2 <;> simp [insertDesc, h]

theorem head?_sortDesc {α : Type} (l : List (α × Nat)) :
    (sortDesc l).head? = firstMax l := by
  induction l with
  | nil => simp [sortDesc, firstMax]
  | cons x xs ih =>
    simp only [sortDesc, firstMax, head?_insertDesc, ih]
    cases firstMax xs with
    | none => simp
    | some m => by_cases h : x.2 < m.2 <;> simp [h]

theorem firstMax_mem {α : Type} {l : List (α × Nat)} {m : α × Nat}
    (h : firstMax l = some m) : m ∈ l := by
  induction l with
  | nil => simp [firstMax] at h
  | cons x xs ih =>
    simp only [firstMax] at h
    cases hx : firstMax xs with
    | none => rw [hx] at h; simp at h; simp [h]
    | some m' =>
      rw [hx] at h
      by_cases hlt : x.2 < m'.2
      · simp only [hlt, if_true, Option.some.injEq] at h
        subst h
        exact List.mem_cons_of_mem _ (ih hx)
      · simp only [hlt, if_false, Option.some.injEq] at h
        simp [h]

theorem firstMax_le {α : Type} :
    ∀ {l : List (α × Nat)} {m : α × Nat},
      firstMax l = some m → ∀ z ∈ l, z.2 ≤ m.2 := by
  intro l
  induction l with
  | nil => intro m h; simp [firstMax] at h
  | cons x xs ih =>
    intro m h z hz
    simp only [firstMax] at h
    cases hx : firstMax xs with
    | none =>
      rw [hx] at h
      simp at h
      have hxs : xs = [] := (firstMax_eq_none_iff xs).mp hx
      subst hxs
      simp at hz
      subst hz
      simp [h]
    | some m' =>
      rw [hx] at h
      have hz' : ∀ w ∈ xs, w.2 ≤ m'.2 := ih hx
      rcases List.mem_cons.mp hz with hzx | hzxs
      · subst hzx
        by_cases hlt : z.2 < m'.2
        · simp only [hlt, if_true, Option.some.injEq] at h
          subst h
          exact Nat.le_of_lt hlt
        · simp only [hlt, if_false, Option.some.injEq] at h
          subst h
          exact Nat.le_refl _
      · by_cases hlt : x.2 < m'.2
        · simp only [hlt, if_true, Option.some.injEq] at h
          subst h
          exact hz' z hzxs
        · simp only [hlt, if_false, Option.some.injEq] at h
          subst h
          exact Nat.le_trans (hz' z hzxs) (Nat.le_of_not_lt hlt)

theorem firstMax_split {α : Type} {l : List (α × Nat)} {m : α × Nat}
    (h : firstMax l = some m) :
    ∃ pre suf, l = pre ++ m :: suf ∧ ∀ z ∈ pre, z.2 < m.2 := by
  induction l with
  | nil => simp [firstMax] at h
  | cons x xs ih =>
    simp only [firstMax] at h
    cases hx : firstMax xs with
    | none =>
      rw [hx] at h
      simp at h
      subst h
      exact ⟨[], xs, rfl, by simp⟩
    | some m' =>
      rw [hx] at h
      by_cases hlt : x.2 < m'.2
      · simp only [hlt, if_true, Option.some.injEq] at h
        subst h
        obtain ⟨pre, suf, hsplit, hpre⟩ := ih hx
        refine ⟨x :: pre, suf, by simp [hsplit], ?_⟩
        intro z hz
        rcases List.mem_cons.mp hz with hzx | hzp
        · subst hzx; exact hlt
        · exact hpre z hzp
      · simp only [hlt, if_false, Option.some.injEq] at h
        subst h
        exact ⟨[], xs, rfl, by simp⟩

theorem map_eq_append_cons {α β : Type} (f : α → β) :
    ∀ (p : List β) (l : List α) (m : β) (s : List β),
      l.map f = p ++ m :: s →
      ∃ l₁ x l₂, l = l₁ ++ x :: l₂ ∧ l₁.map f = p ∧ f x = m
  | [], [], m, s, h => by simp at h
  | [], a :: l', m, s, h => by
    simp at h
    exact ⟨[], a, l', rfl, rfl, h.1⟩
  | b :: p', [], m, s, h => by simp at h
  | b :: p', a :: l', m, s, h => by
    simp at h
    obtain ⟨l₁, x, l₂, hsplit, hmap, hfx⟩ :=
      map_eq_append_cons f p' l' m s h.2
    exact ⟨a :: l₁, x, l₂, by simp [hsplit], by simp [hmap, h.1], hfx⟩

/-! ### Bridge lemmas for the fold-based scores -/

theorem foldl_count {α : Type} (p : α → Bool) :
    ∀ (l : List α) (n : Nat),
      l.foldl (fun sc w => if p w then sc + 1 else sc) n =
        n + (l.filter p).length := by
  intro l
  induction l with
  | nil => intro n; simp
  | cons a l' ih =>
    intro n
    rw [List.foldl_cons, ih, List.filter_cons]
    cases h : p a <;> simp [h] <;> omega

theorem lookup_mem {β : Type} :
    ∀ {l : List (String × β)} {k : String} {v : β},
      List.lookup k l = some v → (k, v) ∈ l := by
  intro l
  induction l with
  | nil => intro k v h; simp [List.lookup] at h
  | cons p es ih =>
    intro k v h
    obtain ⟨k', v'⟩ := p
    simp only [List.lookup] at h
    cases hbeq : k == k' with
    | true =>
      rw [hbeq] at h
      simp at h
      have hk : k = k' := eq_of_beq hbeq
      simp [hk, h]
    | false =>
      rw [hbeq] at h
      simp at h
      exact List.mem_cons_of_mem _ (ih h)

theorem applySubtopics_eq (mt : String) :
    ∀ (ss ts : List String),
      applySubtopics mt ss ts =
        (ss.take ts.length).map (fun s => mt ++ ": " ++ pyTitleCase s) ++
          ts.drop ss.length := by
  intro ss
  induction ss with
  | nil => intro ts; simp [applySubtopics]
  | cons s ss' ih =>
    intro ts
    cases ts with
    | nil => simp [applySubtopics]
    | cons t ts' => simp [applySubtopics, ih]

theorem subcatScore_eq (s : Subcat) (text : String) :
    subcatScore s text = (s.keywords.filter (fun k => substrB k text)).length := by
  have h := foldl_count (fun k => substrB k text) s.keywords 0
  simpa [subcatScore] using h

theorem categoryScore_eq (c : Category) (text : String) :
    categoryScore c text =
      3 * c.skills.countP (fun skill => substrB (lowerStr skill) text) +
      (c.skills.map (fun skill =>
        ((pyWords (lowerStr skill)).filter
          (fun w => substrB w text && decide (3 < w.data.length))).length)).sum := by
  have step_eq : ∀ (score : Nat) (skill : String),
      (pyWords (lowerStr skill)).foldl
        (fun sc w =>
          if substrB w text && decide (3 < w.data.length) then sc + 1 else sc)
        (if substrB (lowerStr skill) text then score + 3 else score) =
      score + ((if substrB (lowerStr skill) text then 3 else 0) +
        ((pyWords (lowerStr skill)).filter
          (fun w => substrB w text && decide (3 < w.data.length))).length) := by
    intro score skill
    rw [foldl_count (fun w => substrB w text && decide (3 < w.data.length))]
    cases hb : substrB (lowerStr skill) text <;> simp [hb] <;> omega
  have main : ∀ (l : List String) (n : Nat),
      l.foldl
        (fun score skill =>
          let score1 := if substrB (lowerStr skill) text then score + 3 else score
          (pyWords (lowerStr skill)).foldl
            (fun sc w =>
              if substrB w text && decide (3 < w.data.length) then sc + 1 else sc)
            score1)
        n =
      n + (3 * l.countP (fun skill => substrB (lowerStr skill) text) +
        (l.map (fun skill =>
          ((pyWords (lowerStr skill)).filter
            (fun w => substrB w text && decide (3 < w.data.length))).length)).sum) := by
    intro l
    induction l with
    | nil => intro n; simp
    | cons s l' ih =>
      intro n
      rw [List.foldl_cons]
      simp only []
      rw [ih, step_eq, List.countP_cons, List.map_cons, List.sum_cons]
      cases hb : substrB (lowerStr s) text <;> simp [hb] <;> omega
  have h := main c.skills 0
  simpa [categoryScore] using h

/-! ### Claim C3 — the scoring formula of `detect_category` -/

/-- C3 counterexample: the claim grants the word-level `+1` only to
multi-word keywords, so it predicts score 3 for the single-word skill
"Python" on the text `"python"`; the code's word loop runs for every
skill, giving 4. -/
theorem c3_counterexample :
    categoryScore cat001 "python" = 4 ∧
    categoryScore_claim cat001 "python" = 3 ∧
    categoryScore cat001 "python" ≠ categoryScore_claim cat001 "python" :=
  ⟨by decide, by decide, by decide⟩

/-- C3 (amended): a category's score is `3` for each skill phrase occurring
as a substring of the text, plus `1` for each word longer than 3 characters
of every skill (single-word skills included) occurring in the text. -/
theorem c3_score_formula (c : Category) (text : String) :
    categoryScore c text =
      3 * c.skills.countP (fun skill => substrB (lowerStr skill) text) +
      (c.skills.map (fun skill =>
        ((pyWords (lowerStr skill)).filter
          (fun w => substrB w text && decide (3 < w.data.length))).length)).sum :=
  categoryScore_eq c text

/-! ### Claim C7 — `detect_category` returns the first maximal registry entry -/

/-- C7: `detect_category` always returns a member of the fixed 8-entry
registry; its score is maximal; every strictly earlier registry entry has
a strictly smaller score (so ties go to the first-declared category); and
when every category scores 0 the first-registered category `cat001` is
returned. -/
theorem c7_detect_category_correct (description about : String) :
    detect_category description about ∈ categories ∧
    categories.length = 8 ∧
    (∀ c ∈ categories,
      categoryScore c (categoryHaystack description about) ≤
        categoryScore (detect_category description about)
          (categoryHaystack description about)) ∧
    (∃ pre suf, categories = pre ++ detect_category description about :: suf ∧
      ∀ c ∈ pre,
        categoryScore c (categoryHaystack description about) <
          categoryScore (detect_category description about)
            (categoryHaystack description about)) ∧
    ((∀ c ∈ categories,
        categoryScore c (categoryHaystack description about) = 0) →
      detect_category description about = cat001) := by
  set text := categoryHaystack description about with htext
  have hne : scoredCategories text ≠ [] := by
    simp [scoredCategories, categories]
  obtain ⟨m, hm⟩ : ∃ m, firstMax (scoredCategories text) = some m := by
    cases hfm : firstMax (scoredCategories text) with
    | none => exact absurd ((firstMax_eq_none_iff _).mp hfm) hne
    | some m => exact ⟨m, rfl⟩
  obtain ⟨mc, ms⟩ := m
  have hmem : (mc, ms) ∈ scoredCategories text := firstMax_mem hm
  obtain ⟨cm, hcm, hpair⟩ := List.mem_map.mp hmem
  have hc1 : cm = mc := congrArg Prod.fst hpair
  have hc2 : categoryScore cm text = ms := congrArg Prod.snd hpair
  have hle : ∀ c ∈ categories, categoryScore c text ≤ ms := by
    intro c hc
    have hzmem : (c, categoryScore c text) ∈ scoredCategories text :=
      List.mem_map.mpr ⟨c, hc, rfl⟩
    exact firstMax_le hm _ hzmem
  obtain ⟨t, ht⟩ : ∃ t, sortDesc (scoredCategories text) = (mc, ms) :: t := by
    have hh := head?_sortDesc (scoredCategories text)
    rw [hm] at hh
    cases hs : sortDesc (scoredCategories text) with
    | nil => rw [hs] at hh; simp at hh
    | cons b t => rw [hs] at hh; simp at hh; exact ⟨t, by rw [hh]⟩
  have hdc : detect_category description about = if ms = 0 then cat001 else mc := by
    unfold detect_category
    rw [← htext, ht]
  by_cases h0 : ms = 0
  · rw [if_pos h0] at hdc
    have hall : ∀ c ∈ categories, categoryScore c text = 0 := by
      intro c hc
      exact Nat.le_zero.mp (h0 ▸ hle c hc)
    refine ⟨?_, by decide, ?_, ?_, fun _ => hdc⟩
    · rw [hdc]; simp [categories]
    · intro c hc
      rw [hdc, hall c hc, hall cat001 (by simp [categories])]
    · refine ⟨[], [cat002, cat003, cat004, cat005, cat006, cat007, cat008],
        ?_, by simp⟩
      rw [hdc]
      rfl
  · rw [if_neg h0] at hdc
    have hmc : mc ∈ categories := hc1 ▸ hcm
    have hms : categoryScore mc text = ms := hc1 ▸ hc2
    refine ⟨hdc ▸ hmc, by decide, ?_, ?_, ?_⟩
    · intro c hc
      rw [hdc, hms]
      exact hle c hc
    · obtain ⟨pre', suf', hsc, hpre'⟩ := firstMax_split hm
      have hsc' : categories.map (fun c => (c, categoryScore c text)) =
          pre' ++ (mc, ms) :: suf' := hsc
      obtain ⟨l₁, x, l₂, hcat, hmap, hfx⟩ :=
        map_eq_append_cons _ pre' categories (mc, ms) suf' hsc'
      have hx1 : x = mc := congrArg Prod.fst hfx
      refine ⟨l₁, l₂, ?_, ?_⟩
      · rw [hdc, ← hx1]; exact hcat
      · intro c hc
        have hcmem : (c, categoryScore c text) ∈ pre' :=
          hmap ▸ List.mem_map_of_mem _ hc
        have hlt := hpre' _ hcmem
        rw [hdc, hms]
        exact hlt
    · intro hall
      exact absurd (hms.symm.trans (hall mc hmc)) h0

/-- C7 witness: on empty inputs every category scores 0 and the default
`cat001` ("Computer Science") is returned. -/
theorem c7_detect_category_correct_witness :
    detect_category "" "" = cat001 :=
  (c7_detect_category_correct "" "").2.2.2.2 (by decide)

/-! ### Ordering properties of the stable descending sort -/

theorem pairwise_insertDesc {α : Type} (x : α × Nat) {l : List (α × Nat)}
    (h : List.Pairwise (fun p q => q.2 ≤ p.2) l) :
    List.Pairwise (fun p q => q.2 ≤ p.2) (insertDesc x l) := by
  induction l with
  | nil => simp [insertDesc]
  | cons y ys ih =>
    rcases List.pairwise_cons.mp h with ⟨hy, hys⟩
    by_cases hlt : x.2 < y.2
    · rw [insertDesc, if_pos hlt]
      refine List.pairwise_cons.mpr ⟨?_, ih hys⟩
      intro z hz
      rcases (mem_insertDesc x z ys).mp hz with hzx | hzys
      · subst hzx; exact Nat.le_of_lt hlt
      · exact hy z hzys
    · rw [insertDesc, if_neg hlt]
      refine List.pairwise_cons.mpr ⟨?_, h⟩
      intro z hz
      rcases List.mem_cons.mp hz with hzy | hzys
      · subst hzy; exact Nat.le_of_not_lt hlt
      · exact Nat.le_trans (hy z hzys) (Nat.le_of_not_lt hlt)

/-- `sortDesc` really sorts: keys are non-increasing along the output. -/
theorem pairwise_sortDesc {α : Type} (l : List (α × Nat)) :
    List.Pairwise (fun p q => q.2 ≤ p.2) (sortDesc l) := by
  induction l with
  | nil => simp [sortDesc]
  | cons x xs ih => exact pairwise_insertDesc x ih

theorem filter_insertDesc {α : Type} (x : α × Nat) (l : List (α × Nat))
    (k : Nat) :
    (insertDesc x l).filter (fun z => z.2 = k) =
      if x.2 = k then x :: l.filter (fun z => z.2 = k)
      else l.filter (fun z => z.2 = k) := by
  induction l with
  | nil =>
    by_cases hx : x.2 = k <;> simp [insertDesc, hx]
  | cons y ys ih =>
    by_cases hlt : x.2 < y.2
    · rw [insertDesc, if_pos hlt, List.filter_cons, List.filter_cons]
      by_cases hx : x.2 = k
      · have hy : ¬ (y.2 = k) := by omega
        simp only [hx, if_pos, ih, hy, decide_eq_true_eq]
        simp [hy]
      · simp only [ih, hx, if_neg]
        simp
    · rw [insertDesc, if_neg hlt, List.filter_cons]
      by_cases hx : x.2 = k <;> simp [hx]

/-- `sortDesc` is stable: for each key value, the entries with that key
appear in the output exactly as they appear in the input. -/
theorem filter_sortDesc {α : Type} (l : List (α × Nat)) (k : Nat) :
    (sortDesc l).filter (fun z => z.2 = k) = l.filter (fun z => z.2 = k) := by
  induction l with
  | nil => simp [sortDesc]
  | cons x xs ih =>
    rw [sortDesc, filter_insertDesc, List.filter_cons]
    by_cases hx : x.2 = k <;> simp [hx, ih]

/-! ### Claim C1 — subcategory detection returns a list, not a single name -/

/-- C1 counterexample: on a text matching two subcategories the function
returns both names, not the single highest-scoring one the claim
describes. -/
theorem c1_counterexample :
    detect_subcategories "programming web" "" "Computer Science" =
      ["Programming Fundamentals", "Web Development"] ∧
    detect_subcategories "programming web" "" "Computer Science" ≠
      ["Programming Fundamentals"] :=
  ⟨by decide, by decide⟩

/-- C1 (amended): subcategory detection returns a non-empty list holding
exactly the names of the category's subcategories whose keyword score over
the lower-cased text is positive, sorted by descending score with ties in
declaration order, and the single default `["Introduction"]` when no
subcategory scores above 0.  The order is pinned by the `pairs` witness:
the result is its name projection, its scores are positive and
non-increasing, and for every positive score value `k` its score-`k`
entries are exactly the subcategories scoring `k`, in declaration order. -/
theorem c1_subcategory_detection (description about category_name : String) :
    detect_subcategories description about category_name ≠ [] ∧
    ((∀ s ∈ subcatsFor category_name,
        subcatScore s (categoryHaystack description about) = 0) →
      detect_subcategories description about category_name = ["Introduction"]) ∧
    ((∃ s ∈ subcatsFor category_name,
        0 < subcatScore s (categoryHaystack description about)) →
      (∀ n, n ∈ detect_subcategories description about category_name ↔
        ∃ s ∈ subcatsFor category_name,
          s.name = n ∧ 0 < subcatScore s (categoryHaystack description about)) ∧
      ∃ pairs : List (String × Nat),
        detect_subcategories description about category_name =
          pairs.map (fun p => p.1) ∧
        (∀ p ∈ pairs, 0 < p.2) ∧
        List.Pairwise (fun p q => q.2 ≤ p.2) pairs ∧
        (∀ k, 0 < k →
          pairs.filter (fun p => p.2 = k) =
            ((subcatsFor category_name).map
              (fun s =>
                (s.name, subcatScore s (categoryHaystack description about)))).filter
              (fun p => p.2 = k))) := by
  have hchar : ∀ n, n ∈ detectedSubcategories description about category_name ↔
      ∃ s ∈ subcatsFor category_name,
        s.name = n ∧ 0 < subcatScore s (categoryHaystack description about) := by
    intro n
    unfold detectedSubcategories
    simp only [List.mem_map, List.mem_filter, mem_sortDesc, decide_eq_true_eq]
    constructor
    · rintro ⟨p, ⟨⟨s, hs, rfl⟩, hpos⟩, rfl⟩
      exact ⟨s, hs, rfl, hpos⟩
    · rintro ⟨s, hs, rfl, hpos⟩
      exact ⟨(s.name, subcatScore s (categoryHaystack description about)),
        ⟨⟨s, hs, rfl⟩, hpos⟩, rfl⟩
  refine ⟨?_, ?_, ?_⟩
  · unfold detect_subcategories
    by_cases h : (detectedSubcategories description about category_name).isEmpty
    · simp [h]
    · rw [if_neg h]
      simpa [List.isEmpty_iff] using h
  · intro hall
    have hempty : detectedSubcategories description about category_name = [] := by
      cases hd : detectedSubcategories description about category_name with
      | nil => rfl
      | cons n rest =>
        exfalso
        have hn : n ∈ detectedSubcategories description about category_name := by
          rw [hd]; exact List.mem_cons_self n rest
        obtain ⟨s, hs, _, hpos⟩ := (hchar n).mp hn
        rw [hall s hs] at hpos
        exact Nat.lt_irrefl 0 hpos
    unfold detect_subcategories
    rw [hempty]
    rfl
  · intro ⟨s, hs, hpos⟩
    have hne : detectedSubcategories description about category_name ≠ [] := by
      intro hnil
      have := (hchar s.name).mpr ⟨s, hs, rfl, hpos⟩
      rw [hnil] at this
      simp at this
    have hr : detect_subcategories description about category_name =
        detectedSubcategories description about category_name := by
      unfold detect_subcategories
      rw [if_neg (by simpa [List.isEmpty_iff] using hne)]
    constructor
    · intro n
      rw [hr]
      exact hchar n
    · refine ⟨(sortDesc ((subcatsFor category_name).map
        (fun s => (s.name, subcatScore s (categoryHaystack description about))))).filter
          (fun p => decide (0 < p.2)), ?_, ?_, ?_, ?_⟩
      · rw [hr]
        rfl
      · intro p hp
        exact of_decide_eq_true (List.mem_filter.mp hp).2
      · exact List.Pairwise.sublist (List.filter_sublist _) (pairwise_sortDesc _)
      · intro k hk
        have hcong : ∀ p ∈ sortDesc ((subcatsFor category_name).map
            (fun s => (s.name, subcatScore s (categoryHaystack description about)))),
            (decide (p.2 = k) && decide (0 < p.2)) = decide (p.2 = k) := by
          intro p _
          by_cases h : p.2 = k
          · simp [h, hk]
          · simp [h]
        calc ((sortDesc ((subcatsFor category_name).map
              (fun s => (s.name, subcatScore s (categoryHaystack description about))))).filter
                (fun p => decide (0 < p.2))).filter (fun p => decide (p.2 = k))
            = (sortDesc ((subcatsFor category_name).map
                (fun s => (s.name, subcatScore s (categoryHaystack description about))))).filter
                (fun p => decide (p.2 = k) && decide (0 < p.2)) :=
              List.filter_filter _ _
          _ = (sortDesc ((subcatsFor category_name).map
                (fun s => (s.name, subcatScore s (categoryHaystack description about))))).filter
                (fun p => decide (p.2 = k)) :=
              List.filter_congr hcong
          _ = ((subcatsFor category_name).map
                (fun s => (s.name, subcatScore s (categoryHaystack description about)))).filter
                (fun p => decide (p.2 = k)) :=
              filter_sortDesc _ k

/-- C1 witness: on empty text every subcategory scores 0 and the default
`["Introduction"]` is returned. -/
theorem c1_subcategory_detection_witness :
    detect_subcategories "" "" "Computer Science" = ["Introduction"] :=
  (c1_subcategory_detection "" "" "Computer Science").2.1 (by decide)

/-! ### Claim C5 — main-topic extraction is keyword lookup, not string surgery -/

/-- C5 counterexample: the claim's procedure takes what follows
"introduction to", predicting "basket weaving"; the code does keyword
lookup and returns the category name. -/
theorem c5_counterexample :
    identify_main_topic "introduction to basket weaving" "Computer Science" =
      "Computer Science" ∧
    identify_main_topic "introduction to basket weaving" "Computer Science" ≠
      "basket weaving" :=
  ⟨by decide, by decide⟩

/-- C5 (amended): `identify_main_topic` returns a language whose keyword
occurs in the text if any does; otherwise the mapped topic of a category
keyword occurring in the text; otherwise the category name itself
("General" when it is empty).  No parenthesis, level, colon or
"introduction to" processing takes place. -/
theorem c5_main_topic_characterization (text category_name : String) :
    ((∀ p ∈ language_keywords, ∀ kw ∈ p.2, substrB kw text = false) →
      (∀ pr ∈ topicKeywordsFor category_name, substrB pr.1 text = false) →
      identify_main_topic text category_name =
        (if category_name = "" then "General" else category_name)) ∧
    ((∃ p ∈ language_keywords, ∃ kw ∈ p.2, substrB kw text = true) →
      ∃ p ∈ language_keywords, (∃ kw ∈ p.2, substrB kw text = true) ∧
        identify_main_topic text category_name = p.1) ∧
    ((∀ p ∈ language_keywords, ∀ kw ∈ p.2, substrB kw text = false) →
      (∃ pr ∈ topicKeywordsFor category_name, substrB pr.1 text = true) →
      ∃ pr ∈ topicKeywordsFor category_name, substrB pr.1 text = true ∧
        identify_main_topic text category_name = pr.2) := by
  have hLnone : (∀ p ∈ language_keywords, ∀ kw ∈ p.2, substrB kw text = false) →
      findLanguage text = none := by
    intro hL
    unfold findLanguage
    rw [List.find?_eq_none.mpr ?_]
    · rfl
    · intro p hp
      simp only [List.any_eq_true, not_exists]
      intro kw
      rintro ⟨hkw, hsub⟩
      rw [hL p hp kw hkw] at hsub
      exact Bool.false_ne_true hsub
  refine ⟨?_, ?_, ?_⟩
  · intro hL hT
    have h1 : findLanguage text = none := hLnone hL
    have h2 : findTopicPair (topicKeywordsFor category_name) text = none :=
      List.find?_eq_none.mpr (fun pr hpr => by simp [hT pr hpr])
    unfold identify_main_topic
    rw [h1, h2]
  · intro ⟨p, hp, kw, hkw, hsub⟩
    cases hf : List.find? (fun q => q.2.any fun kw => substrB kw text)
        language_keywords with
    | none =>
      exfalso
      have hnp := List.find?_eq_none.mp hf p hp
      simp only [List.any_eq_true, not_exists] at hnp
      exact hnp kw ⟨hkw, hsub⟩
    | some q =>
      refine ⟨q, List.mem_of_find?_eq_some hf, ?_, ?_⟩
      · have hq := List.find?_some hf
        simpa [List.any_eq_true] using hq
      · unfold identify_main_topic findLanguage
        rw [hf]
        rfl
  · intro hL ⟨pr, hpr, hsub⟩
    have h1 : findLanguage text = none := hLnone hL
    cases hf : List.find? (fun q => substrB q.1 text)
        (topicKeywordsFor category_name) with
    | none =>
      exfalso
      have hnp := List.find?_eq_none.mp hf pr hpr
      simp only at hnp
      exact hnp hsub
    | some q =>
      refine ⟨q, List.mem_of_find?_eq_some hf,
        (by simpa using List.find?_some hf), ?_⟩
      unfold identify_main_topic
      rw [h1]
      unfold findTopicPair
      rw [hf]

/-- C5 witness: on a text with no language and no topic keyword and an
empty category name, the default "General" is returned. -/
theorem c5_main_topic_characterization_witness :
    identify_main_topic "qqq" "" = "General" :=
  (c5_main_topic_characterization "qqq" "").1 (by decide) (by decide)

/-! ### Claim C6 — failure handling of the remote title generation -/

/-- C6 counterexample: a malformed (non-JSON) remote response with a plain
text line is not routed to the deterministic fallback — the extracted line
is returned instead. -/
theorem c6_counterexample :
    generate_content_titles (RemoteResult.contentText "hello") "Python Course"
      "" "Computer Science" = ["hello"] ∧
    generate_content_titles (RemoteResult.contentText "hello") "Python Course"
      "" "Computer Science" ≠
      generate_fallback_content_titles "Python Course" "" "Computer Science" :=
  ⟨by decide, by decide⟩

/-- C6 (amended): on a missing credential, a request failure (network
error, timeout, error status), a response without choices, a JSON content
without a non-empty titles list, or a malformed content from which the
line extraction yields nothing (or aborts on a bulleted line), the
function returns the deterministic fallback titles and never propagates
the error. -/
theorem c6_failure_fallback (lesson_title description category_name : String) :
    generate_content_titles RemoteResult.noApiKey lesson_title description
      category_name =
      generate_fallback_content_titles lesson_title description category_name ∧
    (∀ msg, generate_content_titles (RemoteResult.requestFailure msg)
      lesson_title description category_name =
      generate_fallback_content_titles lesson_title description category_name) ∧
    generate_content_titles RemoteResult.noChoices lesson_title description
      category_name =
      generate_fallback_content_titles lesson_title description category_name ∧
    generate_content_titles (RemoteResult.contentJson none) lesson_title
      description category_name =
      generate_fallback_content_titles lesson_title description category_name ∧
    generate_content_titles (RemoteResult.contentJson (some [])) lesson_title
      description category_name =
      generate_fallback_content_titles lesson_title description category_name ∧
    (∀ content, remoteTitles (RemoteResult.contentText content) = none →
      generate_content_titles (RemoteResult.contentText content) lesson_title
        description category_name =
        generate_fallback_content_titles lesson_title description category_name) :=
  ⟨rfl, fun _ => rfl, rfl, rfl, rfl, fun content h => by
    unfold generate_content_titles
    rw [h]⟩

/-- C6 witness: a malformed content whose only line is bulleted (the
`startswith("-", "*")` TypeError path) falls back. -/
theorem c6_failure_fallback_witness :
    generate_content_titles (RemoteResult.contentText "- a") "T" "" "X" =
      generate_fallback_content_titles "T" "" "X" :=
  (c6_failure_fallback "T" "" "X").2.2.2.2.2 "- a" rfl

/-! ### Claim C2 — the category haystack excludes the title -/

/-- C2 counterexample: a row whose title is "Biology" with empty
description/about is classified `cat001` (the zero-score default) by the
code, while scoring over a haystack that includes the title would give
`cat008` ("Science"). -/
theorem c2_counterexample :
    rowCategory ⟨some "Biology", "Beginner", some "", some "", none, none⟩ =
      cat001 ∧
    detect_category_claim "Biology" "" "" = cat008 ∧
    cat001 ≠ cat008 :=
  ⟨by decide, by decide, by decide⟩

/-- C2 (amended): the detected category of a row is computed from the
normalized description and 'about' fields only — changing the title (or
the difficulty level) never changes it. -/
theorem c2_title_not_in_haystack (row : InputRow) (n : Option String)
    (lvl : String) :
    rowCategory { row with name := n, difficultyLevel := lvl } =
      rowCategory row ∧
    rowCategory row =
      detect_category (row.courseDescription.getD "") (row.about.getD "") :=
  ⟨rfl, rfl⟩

/-! ### Claim C4 — the language override and its template -/

/-- C4 counterexample: the titles the claim lists for the Mandarin
scenario are not the code's chinese template. -/
theorem c4_counterexample :
    generate_fallback_content_titles "Beginner Mandarin Chinese Course" ""
      "Computer Science" ≠
      ["Introduction to Mandarin Chinese", "Pinyin and Characters",
       "Grammar and Sentence Structure", "Reading and Writing",
       "Listening and Speaking"] := by decide

/-- C4 (amended): for the scenario title "Beginner Mandarin Chinese
Course" with empty description the language override applies regardless of
the classified category, and the titles are the code's chinese template. -/
theorem c4_chinese_template (category_name : String) :
    generate_fallback_content_titles "Beginner Mandarin Chinese Course" ""
      category_name =
      ["Introduction to Mandarin Chinese", "Pinyin and Pronunciation",
       "Chinese Characters and Writing",
       "Basic Grammar and Sentence Structure",
       "Everyday Conversation Practice"] := rfl

/-! ### Claim C8 — a fully absent row crashes on the NaN lesson title -/

/-- C8: on a row whose text cells are all absent (NaN) and with no API
key, the row loop raises: `generate_fallback_content_titles` calls
`.lower()` on the NaN `row["Name"]` (the `except` handler then re-raises
the same error from its own fallback call), so the claimed "no exception"
behaviour does not hold for absent titles. -/
theorem c8_absent_title_error (ulid status : String) (daysAgo offset : Nat)
    (now : Int) :
    processRow ⟨none, "", none, none, none, none⟩ ulid daysAgo offset status
      now RemoteResult.noApiKey =
      Except.error "AttributeError: 'float' object has no attribute 'lower'" :=
  rfl

/-! ### Claim C9 — createdAt ≤ updatedAt -/

/-- C9: every record the row loop outputs satisfies
`createdAt ≤ updatedAt`: createdAt is now minus a 1–365 day offset and
updatedAt adds a 0–30 day offset to it. -/
theorem c9_timestamps_ordered (row : InputRow) (ulid : String)
    (daysAgo offset : Nat) (status : String) (now : Int)
    (remote : RemoteResult) (rec : OutputRecord)
    (hd1 : 1 ≤ daysAgo) (hd2 : daysAgo ≤ 365) (ho : offset ≤ 30)
    (hok : processRow row ulid daysAgo offset status now remote =
      Except.ok rec) :
    rec.createdAt ≤ rec.updatedAt := by
  simp only [processRow] at hok
  cases hdyn : generate_content_titles_dyn remote row.name
      (row.courseDescription.getD "") (rowCategory row).name with
  | error e =>
    rw [hdyn] at hok
    simp at hok
  | ok ts =>
    rw [hdyn] at hok
    simp only [Except.ok.injEq] at hok
    subst hok
    dsimp only
    omega

/-- C9 witness: a concrete row processed with daysAgo = 10, offset = 5. -/
theorem c9_timestamps_ordered_witness :
    1 ≤ 10 ∧ (10 : Nat) ≤ 365 ∧ (5 : Nat) ≤ 30 ∧
    ((processRow ⟨some "", "", none, none, none, none⟩ "01HA" 10 5 "active" 0
        RemoteResult.noApiKey).map
      (fun rec => decide (rec.createdAt ≤ rec.updatedAt)) = Except.ok true) :=
  ⟨by decide, by decide, by decide, by
    have h := c9_timestamps_ordered ⟨some "", "", none, none, none, none⟩
      "01HA" 10 5 "active" 0 RemoteResult.noApiKey _
      (by decide) (by decide) (by decide) rfl
    exact congrArg Except.ok (decide_eq_true h)⟩

/-! ### Claim C10 — subtopic overwriting of the chosen template -/

/-- For every entry of the patterns table, the corresponding template is
non-empty and no overwritten first entry `"{topic}: {Subtopic}"` collides
with the template's own first entry (checked over the whole finite
table). -/
theorem subtopicTemplateFacts :
    ∀ p ∈ subtopic_patterns,
      topicTemplatesFor p.1 ≠ [] ∧
      ∀ s ∈ p.2,
        p.1 ++ ": " ++ pyTitleCase s ≠ (topicTemplatesFor p.1).headD "" := by
  decide

/-- C10: with no detected subtopics the first 5 template entries are
returned unchanged; with detected subtopics the first up-to-4 entries are
overwritten by `"{main topic}: {Subtopic}"` (in detection order, remaining
entries unchanged) and the result differs from the fixed template. -/
theorem c10_subtopic_overwrite (text main_topic : String) :
    (identify_subtopics text main_topic = [] →
      generate_titles_for_topic main_topic (identify_subtopics text main_topic) =
        (topicTemplatesFor main_topic).take 5) ∧
    (identify_subtopics text main_topic ≠ [] →
      generate_titles_for_topic main_topic (identify_subtopics text main_topic) =
        ((((identify_subtopics text main_topic).take 4).take
            (topicTemplatesFor main_topic).length).map
          (fun s => main_topic ++ ": " ++ pyTitleCase s) ++
          (topicTemplatesFor main_topic).drop
            ((identify_subtopics text main_topic).take 4).length).take 5 ∧
      generate_titles_for_topic main_topic (identify_subtopics text main_topic) ≠
        (topicTemplatesFor main_topic).take 5) := by
  constructor
  · intro hnil
    unfold generate_titles_for_topic
    rw [hnil]
    rfl
  · intro hne
    obtain ⟨pats, hlook⟩ :
        ∃ pats, subtopic_patterns.lookup main_topic = some pats := by
      cases hl : subtopic_patterns.lookup main_topic with
      | none =>
        exfalso
        apply hne
        unfold identify_subtopics subtopicPatternsFor
        rw [hl]
        rfl
      | some pats => exact ⟨pats, rfl⟩
    have hmem : (main_topic, pats) ∈ subtopic_patterns := lookup_mem hlook
    have hfacts := subtopicTemplateFacts _ hmem
    have hTne : topicTemplatesFor main_topic ≠ [] := hfacts.1
    obtain ⟨s₀, rest, hsubs⟩ :
        ∃ s₀ rest, identify_subtopics text main_topic = s₀ :: rest := by
      cases hs : identify_subtopics text main_topic with
      | nil => exact absurd hs hne
      | cons a l => exact ⟨a, l, rfl⟩
    have hs₀pats : s₀ ∈ pats := by
      have hin : s₀ ∈ identify_subtopics text main_topic := by
        rw [hsubs]
        exact List.mem_cons_self _ _
      unfold identify_subtopics subtopicPatternsFor at hin
      rw [hlook] at hin
      exact List.mem_of_mem_filter hin
    obtain ⟨t₀, T', hT⟩ :
        ∃ t₀ T', topicTemplatesFor main_topic = t₀ :: T' := by
      cases hTl : topicTemplatesFor main_topic with
      | nil => exact absurd hTl hTne
      | cons a l => exact ⟨a, l, rfl⟩
    have hhead : main_topic ++ ": " ++ pyTitleCase s₀ ≠ t₀ := by
      have hfs := hfacts.2 s₀ hs₀pats
      rw [hT] at hfs
      simpa using hfs
    have heq : generate_titles_for_topic main_topic
        (identify_subtopics text main_topic) =
        ((((identify_subtopics text main_topic).take 4).take
            (topicTemplatesFor main_topic).length).map
          (fun s => main_topic ++ ": " ++ pyTitleCase s) ++
          (topicTemplatesFor main_topic).drop
            ((identify_subtopics text main_topic).take 4).length).take 5 := by
      rw [hsubs]
      show (applySubtopics main_topic ((s₀ :: rest).take 4)
        (topicTemplatesFor main_topic)).take 5 = _
      rw [applySubtopics_eq]
    refine ⟨heq, ?_⟩
    rw [heq, hsubs, hT]
    intro hcontra
    have hheads : main_topic ++ ": " ++ pyTitleCase s₀ = t₀ := by
      have hh := congrArg List.head? hcontra
      simpa [List.take_succ_cons, List.length_cons] using hh
    exact hhead hheads

/-- C10 witness: "learn python variables" under main topic "Python"
detects the subtopic "variables" and the titles differ from the fixed
Python template. -/
theorem c10_subtopic_overwrite_witness :
    generate_titles_for_topic "Python"
      (identify_subtopics "learn python variables" "Python") ≠
      (topicTemplatesFor "Python").take 5 :=
  ((c10_subtopic_overwrite "learn python variables" "Python").2 (by decide)).2
